import Mathlib

/-!
# Verification of the VR session backend

A shallow embedding of the backend of a multi-user VR platform:
the persisted session store (`VRSession`, its route handlers), the durable
chat store (`StoredChatMessage`, its route handlers), and the in-memory
realtime relay (`RelayState`, its socket event handlers).

Conventions of the embedding:
* JavaScript `Map` objects become association lists (`mapGet` / `mapSet` /
  `mapHas` mirror `Map.get` / `Map.set` / `Map.has`), JS `Set` objects become
  duplicate-free insertion-ordered lists (`setAdd` mirrors `Set.add`).
* Timestamps are naturals (epoch milliseconds, the unit of JS `Date`
  subtraction); sources of nondeterminism (`Date.now()`, `uuid.v4()`,
  `Math.random()`) are passed as explicit arguments.
* Mongo/mongoose documents become structures; `findOne` becomes `List.find?`
  over the modelled collection; a route handler becomes a pure function from
  the addressed record (or the collection) and the request to a result code
  plus the new record (or collection).
* The JS idiom `a || b` on strings (empty string is falsy) is `jsOrStr`.
-/

set_option autoImplicit false

/-! ## Association-list maps (JS `Map`) and sets (JS `Set`) -/

/-- Model of `Map.prototype.get`: value at the first matching key. -/
def mapGet {K V : Type} [BEq K] : List (K × V) → K → Option V
  | [], _ => none
  | p :: rest, k => if p.1 == k then some p.2 else mapGet rest k

/-- Model of `Map.prototype.set`: replace in place if the key is present
(keys are unique in a JS `Map`), otherwise append. -/
def mapSet {K V : Type} [BEq K] : List (K × V) → K → V → List (K × V)
  | [], k, v => [(k, v)]
  | p :: rest, k, v => if p.1 == k then (k, v) :: rest else p :: mapSet rest k v

/-- Model of `Map.prototype.has`. -/
def mapHas {K V : Type} [BEq K] : List (K × V) → K → Bool
  | [], _ => false
  | p :: rest, k => p.1 == k || mapHas rest k

/-- Model of `Set.prototype.add`: append unless already present. -/
def setAdd {A : Type} [BEq A] (l : List A) (a : A) : List A :=
  if l.contains a then l else l ++ [a]

/-! ## Shared primitive types -/

/-- Three-component numeric vector (positions / rotations / scales).
JS numbers carried as data; no arithmetic is performed on them. -/
structure Vec3 where
  x : Rat
  y : Rat
  z : Rat
deriving DecidableEq, Repr

/-- User identity (a Mongo ObjectId; the code always compares identities via
string equality of the ids, which plain equality models). -/
abbrev UserId := Nat

/-- The JS idiom `a || b` for an optional string `a`: the empty string is
falsy, so it also falls through to the default. -/
def jsOrStr (a : Option String) (b : String) : String :=
  match a with
  | none => b
  | some s => if s.isEmpty then b else s

/-- The JS idiom `a || b || c` chain on optional strings, as used for
avatar defaulting (`avatar || req.user.vrPreferences?.defaultAvatar || 'sphere'`). -/
def jsOrOpt (a b : Option String) : Option String :=
  match a with
  | none => b
  | some s => if s.isEmpty then b else some s

/-- Whitespace test for the trim sanitizer. -/
def isWsp (c : Char) : Bool :=
  c == ' ' || c == '\t' || c == '\n' || c == '\r'

/-- Model of the express-validator `.trim()` sanitizer (JS
`String.prototype.trim`): strip leading and trailing whitespace. -/
def strTrim (s : String) : String :=
  String.mk (((s.data.dropWhile isWsp).reverse.dropWhile isWsp).reverse)

/-! ## Persisted session model (models/VRSession.js) -/

/-- One entry of `currentUsers` (embedded member sub-document). -/
structure SessionMember where
  user : UserId
  joinedAt : Nat
  position : Vec3
  rotation : Vec3
  avatar : String
deriving DecidableEq, Repr

/-- One entry of `bannedUsers`. -/
structure BannedUser where
  user : UserId
  bannedAt : Nat
  reason : String
deriving DecidableEq, Repr

/-- The `settings` sub-document. -/
structure SessionSettings where
  isPrivate : Bool
  requireInvite : Bool
  voiceChatEnabled : Bool
  handTrackingEnabled : Bool
  physicsEnabled : Bool
deriving DecidableEq, Repr

/-- Persisted shared-object sub-document (embedded in a session).
Free-form `properties` carried as a key/value list. -/
structure StoredSharedObject where
  id : String
  type : String
  position : Vec3
  rotation : Vec3
  scale : Vec3
  properties : List (String × String)
  createdBy : UserId
deriving DecidableEq, Repr

/-- The persisted VR session document (vrSessionSchema).  The mongoose
`timestamps` bookkeeping is represented by `createdAt` (needed for the
duration computation); `endedAt` and `duration` are unset until the session
deactivates. -/
structure VRSession where
  sessionId : String
  name : String
  description : Option String
  host : UserId
  environment : String
  maxUsers : Nat
  currentUsers : List SessionMember
  sharedObjects : List StoredSharedObject
  settings : SessionSettings
  inviteCode : Option String
  invitedUsers : List UserId
  bannedUsers : List BannedUser
  isActive : Bool
  createdAt : Nat
  endedAt : Option Nat
  duration : Option Int
deriving DecidableEq, Repr

/-- `vrSessionSchema.methods.canUserJoin` (models/VRSession.js).
Mirrors the three early-return guards of the source method. -/
def canUserJoin (s : VRSession) (userId : UserId) : Bool :=
  if s.bannedUsers.any (fun banned => banned.user == userId) then false
  else if s.currentUsers.length ≥ s.maxUsers then false
  else if s.settings.requireInvite && !(s.invitedUsers.contains userId) then false
  else true

/-! ## Session store route handlers (routes/vrSessions.js)

Each handler takes the addressed session record plus the request data and
returns a result code together with the (possibly updated) record.  The
`findOne({ sessionId, isActive: true, ... })` query of each route becomes a
boolean guard; a failed query yields the route's 404 outcome and leaves the
record untouched. -/

/-- Outcome codes of the session-store routes, one per distinct response. -/
inductive ApiResult where
  | ok
  | notFound
  | accessDenied
  | cannotJoin
  | invalidInvite
  | alreadyInSession
  | validationError
deriving DecidableEq, Repr

/-- HTTP surface of the join route: status code and error string per outcome,
as written in the route's response literals. -/
def joinHttp : ApiResult → Nat × String
  | .notFound => (404, "VR session not found")
  | .cannotJoin => (403, "Cannot join this session")
  | .invalidInvite => (403, "Invalid invite code")
  | .alreadyInSession => (400, "User already in session")
  | _ => (200, "Joined VR session successfully")

/-- The query `findOne({ sessionId, isActive: true })`. -/
def sessionQueryActive (s : VRSession) (reqId : String) : Bool :=
  s.sessionId == reqId && s.isActive

/-- The query `findOne({ sessionId, isActive: true, host })` of the
host-only routes. -/
def sessionQueryActiveHost (s : VRSession) (reqId : String) (caller : UserId) : Bool :=
  s.sessionId == reqId && s.isActive && s.host == caller

/-- GET /:sessionId — fetch a session (read-only; the stored record is
returned unchanged in the second component). -/
def fetchSession (s : VRSession) (reqId : String) (caller : Option UserId) :
    ApiResult × VRSession :=
  if !(sessionQueryActive s reqId) then (.notFound, s)
  else if s.settings.isPrivate &&
      (match caller with | none => true | some c => !(s.host == c)) then
    (.accessDenied, s)
  else (.ok, s)

/-- POST /:sessionId/join.  `randPos` stands for the `Math.random()` spawn
position and `defaultAvatar` for `req.user.vrPreferences?.defaultAvatar`. -/
def joinSession (s : VRSession) (reqId : String) (u : UserId) (invite : Option String)
    (reqPosition : Option Vec3) (reqAvatar : Option String)
    (randPos : Vec3) (defaultAvatar : Option String) (now : Nat) :
    ApiResult × VRSession :=
  if !(sessionQueryActive s reqId) then (.notFound, s)
  else if !(canUserJoin s u) then (.cannotJoin, s)
  else if s.settings.requireInvite && !(s.inviteCode == invite) then (.invalidInvite, s)
  else if (s.currentUsers.find? (fun m => m.user == u)).isSome then (.alreadyInSession, s)
  else
    (.ok, { s with currentUsers := s.currentUsers ++
      [{ user := u, joinedAt := now,
         position := reqPosition.getD randPos,
         rotation := ⟨0, 0, 0⟩,
         avatar := jsOrStr (jsOrOpt reqAvatar defaultAvatar) "sphere" }] })

/-- POST /:sessionId/leave.  Removes the caller from `currentUsers`; when the
list empties the session deactivates, stamping `endedAt := now` and
`duration := Math.floor((endedAt - createdAt) / 1000)` (timestamps in
milliseconds, duration in whole seconds). -/
def leaveSession (s : VRSession) (reqId : String) (u : UserId) (now : Nat) :
    ApiResult × VRSession :=
  if !(sessionQueryActive s reqId) then (.notFound, s)
  else
    let remaining := s.currentUsers.filter (fun m => !(m.user == u))
    if remaining.length == 0 then
      (.ok, { s with
              currentUsers := remaining, isActive := false, endedAt := some now,
              duration := some (((now : Int) - (s.createdAt : Int)).fdiv 1000) })
    else (.ok, { s with currentUsers := remaining })

/-- Partial update of `settings` (spread-merged by the PUT route). -/
structure SettingsUpdates where
  isPrivate : Option Bool
  requireInvite : Option Bool
  voiceChatEnabled : Option Bool
  handTrackingEnabled : Option Bool
  physicsEnabled : Option Bool
deriving DecidableEq, Repr

/-- Whitelisted fields accepted by PUT /:sessionId. -/
structure SessionUpdates where
  name : Option String
  description : Option String
  maxUsers : Option Nat
  settings : Option SettingsUpdates
deriving DecidableEq, Repr

/-- The express-validator checks of PUT /:sessionId (name 3..100 chars,
description up to 500 chars, maxUsers 2..100; all optional). -/
def validSessionUpdates (u : SessionUpdates) : Bool :=
  (match u.name with
   | some n => decide (3 ≤ n.length) && decide (n.length ≤ 100)
   | none => true) &&
  (match u.description with
   | some d => decide (d.length ≤ 500)
   | none => true) &&
  (match u.maxUsers with
   | some m => decide (2 ≤ m) && decide (m ≤ 100)
   | none => true)

/-- `{ ...session.settings, ...updates.settings }`. -/
def mergeSettings (old : SessionSettings) (u : SettingsUpdates) : SessionSettings :=
  { isPrivate := u.isPrivate.getD old.isPrivate,
    requireInvite := u.requireInvite.getD old.requireInvite,
    voiceChatEnabled := u.voiceChatEnabled.getD old.voiceChatEnabled,
    handTrackingEnabled := u.handTrackingEnabled.getD old.handTrackingEnabled,
    physicsEnabled := u.physicsEnabled.getD old.physicsEnabled }

/-- PUT /:sessionId — host-only whitelisted field merge (validation runs
before the store query, and name/description are trimmed by the
sanitizers). -/
def updateSession (s : VRSession) (reqId : String) (caller : UserId)
    (upd : SessionUpdates) : ApiResult × VRSession :=
  if !(validSessionUpdates upd) then (.validationError, s)
  else if !(sessionQueryActiveHost s reqId caller) then (.notFound, s)
  else
    let s1 := match upd.name with
      | some n => { s with name := strTrim n }
      | none => s
    let s2 := match upd.description with
      | some d => { s1 with description := some (strTrim d) }
      | none => s1
    let s3 := match upd.maxUsers with
      | some m => { s2 with maxUsers := m }
      | none => s2
    let s4 := match upd.settings with
      | some su => { s3 with settings := mergeSettings s3.settings su }
      | none => s3
    (.ok, s4)

/-- DELETE /:sessionId — host-only end: deactivate and stamp
`endedAt` / `duration`. -/
def endSession (s : VRSession) (reqId : String) (caller : UserId) (now : Nat) :
    ApiResult × VRSession :=
  if !(sessionQueryActiveHost s reqId caller) then (.notFound, s)
  else (.ok, { s with
               isActive := false, endedAt := some now,
               duration := some (((now : Int) - (s.createdAt : Int)).fdiv 1000) })

/-- POST /:sessionId/invite-code — host-only regeneration; `code` stands for
the random six-character code produced by `generateInviteCode`. -/
def regenInviteCode (s : VRSession) (reqId : String) (caller : UserId)
    (code : String) : ApiResult × VRSession :=
  if !(sessionQueryActiveHost s reqId caller) then (.notFound, s)
  else (.ok, { s with inviteCode := some code })

/-- One request against the session store, for stating trace properties. -/
inductive SessionOp where
  | fetch (reqId : String) (caller : Option UserId)
  | join (reqId : String) (u : UserId) (invite : Option String)
      (reqPosition : Option Vec3) (reqAvatar : Option String)
      (randPos : Vec3) (defaultAvatar : Option String) (now : Nat)
  | leave (reqId : String) (u : UserId) (now : Nat)
  | update (reqId : String) (caller : UserId) (upd : SessionUpdates)
  | endOp (reqId : String) (caller : UserId) (now : Nat)
  | regen (reqId : String) (caller : UserId) (code : String)

/-- State effect of one session-store request on the addressed record. -/
def applyOp (s : VRSession) : SessionOp → VRSession
  | .fetch reqId caller => (fetchSession s reqId caller).2
  | .join reqId u invite p a rp da now => (joinSession s reqId u invite p a rp da now).2
  | .leave reqId u now => (leaveSession s reqId u now).2
  | .update reqId c upd => (updateSession s reqId c upd).2
  | .endOp reqId c now => (endSession s reqId c now).2
  | .regen reqId c code => (regenInviteCode s reqId c code).2

/-! ## Concrete session fixtures -/

/-- A session member fixture (schema default spawn position). -/
def exMember (uid : UserId) : SessionMember :=
  { user := uid, joinedAt := 0, position := ⟨0, 8/5, -3⟩,
    rotation := ⟨0, 0, 0⟩, avatar := "sphere" }

/-- An active public session hosted by user 1 with user 1 as sole member. -/
def exSession : VRSession :=
  { sessionId := "s1", name := "Demo", description := none, host := 1,
    environment := "default", maxUsers := 20,
    currentUsers := [exMember 1],
    sharedObjects := [],
    settings := { isPrivate := false, requireInvite := false,
                  voiceChatEnabled := true, handTrackingEnabled := true,
                  physicsEnabled := true },
    inviteCode := none, invitedUsers := [], bannedUsers := [],
    isActive := true, createdAt := 0, endedAt := none, duration := none }

/-- A session at capacity: two members, `maxUsers = 2`. -/
def exFullSession : VRSession :=
  { exSession with maxUsers := 2, currentUsers := [exMember 1, exMember 2] }

/-- A session (not full) on which user 3 is banned. -/
def exBanSession : VRSession :=
  { exSession with bannedUsers := [{ user := 3, bannedAt := 0, reason := "spam" }] }

/-- An ended (inactive) session. -/
def exEndedSession : VRSession :=
  { exSession with
    currentUsers := [], isActive := false,
    endedAt := some 99, duration := some 0 }

/-! ## Durable chat store (models/ChatMessage.js, routes/chat.js)

The collection is a list of documents; `findOne` is `List.find?`; a save of
a modified document replaces it in place (documents are addressed by their
unique `_id`). -/

/-- One attachment of the `metadata.attachments` array. -/
structure ChatAttachment where
  type : String
  url : String
deriving DecidableEq, Repr

/-- The `metadata` sub-document. -/
structure ChatMetadata where
  vrPosition : Option Vec3
  attachments : List ChatAttachment
deriving DecidableEq, Repr

/-- The persisted chat message document (chatMessageSchema); `createdAt`
comes from the mongoose timestamps and drives the edit window. -/
structure StoredChatMessage where
  id : String
  user : UserId
  username : String
  message : String
  room : String
  messageType : String
  metadata : ChatMetadata
  createdAt : Nat
  editedAt : Option Nat
  deletedAt : Option Nat
deriving DecidableEq, Repr

/-- Insertion step of the `sort({ createdAt: -1 })` stage. -/
def insertByCreatedAtDesc (m : StoredChatMessage) :
    List StoredChatMessage → List StoredChatMessage
  | [] => [m]
  | x :: xs =>
    if x.createdAt < m.createdAt then m :: x :: xs
    else x :: insertByCreatedAtDesc m xs

/-- `sort({ createdAt: -1 })`: newest first. -/
def sortByCreatedAtDesc (l : List StoredChatMessage) : List StoredChatMessage :=
  l.foldr insertByCreatedAtDesc []

/-- The query `find({ room, deletedAt: null })`. -/
def liveInRoom (store : List StoredChatMessage) (room : String) :
    List StoredChatMessage :=
  store.filter (fun m => m.room == room && m.deletedAt == none)

/-- GET /history/:room — non-deleted room messages, newest-first sort,
`skip`/`limit` pagination, then reversed into chronological order. -/
def historyQuery (store : List StoredChatMessage) (room : String)
    (page limit : Nat) : List StoredChatMessage :=
  let skip := (page - 1) * limit
  ((sortByCreatedAtDesc (liveInRoom store room)).drop skip).take limit |>.reverse

/-- One group of the GET /rooms aggregation. -/
structure RoomAgg where
  room : String
  lastMessage : Nat
  messageCount : Nat
  lastMessageText : String
  lastUsername : String
deriving DecidableEq, Repr

/-- The `$match: { deletedAt: null }` stage. -/
def liveMessages (store : List StoredChatMessage) : List StoredChatMessage :=
  store.filter (fun m => m.deletedAt == none)

/-- Distinct room keys of the `$group: { _id: '$room' }` stage. -/
def roomKeys (l : List StoredChatMessage) : List String :=
  (l.map (fun m => m.room)).dedup

/-- One `$group` output: `$max createdAt`, `$sum 1`, `$last` message and
username over the room's documents. -/
def aggForRoom (l : List StoredChatMessage) (r : String) : RoomAgg :=
  let g := l.filter (fun m => m.room == r)
  { room := r,
    lastMessage := g.foldl (fun acc m => max acc m.createdAt) 0,
    messageCount := g.length,
    lastMessageText := (g.getLast?.map (fun m => m.message)).getD "",
    lastUsername := (g.getLast?.map (fun m => m.username)).getD "" }

/-- Insertion step of the `$sort: { lastMessage: -1 }` stage. -/
def insertByLastMessageDesc (a : RoomAgg) : List RoomAgg → List RoomAgg
  | [] => [a]
  | x :: xs =>
    if x.lastMessage < a.lastMessage then a :: x :: xs
    else x :: insertByLastMessageDesc a xs

/-- `$sort: { lastMessage: -1 }`. -/
def sortAggByLastDesc (l : List RoomAgg) : List RoomAgg :=
  l.foldr insertByLastMessageDesc []

/-- GET /rooms — the aggregation pipeline: match non-deleted, group by room,
sort by last activity, limit 20. -/
def roomsQuery (store : List StoredChatMessage) : List RoomAgg :=
  let live := liveMessages store
  (sortAggByLastDesc ((roomKeys live).map (aggForRoom live))).take 20

/-- The query `findOne({ _id, user, deletedAt: null })` shared by the edit
and delete routes. -/
def findOwnLiveMessage (store : List StoredChatMessage) (msgId : String)
    (uid : UserId) : Option StoredChatMessage :=
  store.find? (fun m => m.id == msgId && m.user == uid && m.deletedAt == none)

/-- DELETE /:messageId — author-only soft delete: stamp `deletedAt`, keep
the document in the collection. -/
def softDeleteMessage (store : List StoredChatMessage) (msgId : String)
    (uid : UserId) (now : Nat) : ApiResult × List StoredChatMessage :=
  match findOwnLiveMessage store msgId uid with
  | none => (.notFound, store)
  | some m =>
    (.ok, store.map (fun x =>
      if x.id == m.id then { x with deletedAt := some now } else x))

/-- Outcome codes of the edit route, one per distinct response. -/
inductive EditResult where
  | validationError
  | notFound
  | tooOld
  | saveInvalid
  | ok
deriving DecidableEq, Repr

/-- PUT /:messageId — author-only edit.  Validation (1..1000 chars, then the
trim sanitizer) runs before the query; a message created strictly before
`now - 15 minutes` is rejected as too old; otherwise only `message` and
`editedAt` are written.  `saveInvalid` models the mongoose `required`
check rejecting an all-whitespace body at save time. -/
def editMessage (store : List StoredChatMessage) (msgId : String) (uid : UserId)
    (newBody : String) (now : Nat) : EditResult × List StoredChatMessage :=
  if newBody.length < 1 ∨ 1000 < newBody.length then (.validationError, store)
  else
    match findOwnLiveMessage store msgId uid with
    | none => (.notFound, store)
    | some m =>
      if m.createdAt < now - 15 * 60 * 1000 then (.tooOld, store)
      else if (strTrim newBody).isEmpty then (.saveInvalid, store)
      else
        (.ok, store.map (fun x =>
          if x.id == m.id then
            { x with message := strTrim newBody, editedAt := some now }
          else x))

/-! ## Chat fixtures -/

/-- A live message by user 1 in the global room, created at time 0. -/
def exChatMsg : StoredChatMessage :=
  { id := "m1", user := 1, username := "alice", message := "hello",
    room := "global", messageType := "text",
    metadata := { vrPosition := none, attachments := [] },
    createdAt := 0, editedAt := none, deletedAt := none }

/-- A soft-deleted message in the same room. -/
def exDeletedMsg : StoredChatMessage :=
  { exChatMsg with id := "m2", message := "bye", deletedAt := some 5 }

/-- A two-message collection containing one soft-deleted message. -/
def exChatStore : List StoredChatMessage := [exChatMsg, exDeletedMsg]

/-! ## Realtime relay (server.js socket handlers)

The relay keeps three process-local maps — `activeUsers`, `vrSessions`,
`chatRooms` — plus, per connected socket, the transport-level socket.io
room list manipulated by `socket.join` / `socket.leave` (modelled
separately because the source keeps it inside the socket library rather
than in `activeUsers`).  Each handler returns the new state and the list
of broadcasts it emits, in order. -/

/-- One `activeUsers` entry (built at connection time). -/
structure RelayUser where
  socketId : String
  username : String
  joinedAt : Nat
  currentRoom : Option String
  vrPosition : Option Vec3
  vrRotation : Option Vec3
deriving DecidableEq, Repr

/-- Free-form `properties` bag of a relay shared object. -/
abbrev Props := List (String × String)

/-- A shared object held in a relay room's object map; fields the client
omitted from the descriptor stay unset. -/
structure RelaySharedObject where
  id : String
  type : Option String
  position : Option Vec3
  rotation : Option Vec3
  scale : Option Vec3
  properties : Option Props
  createdBy : UserId
  createdAt : Nat
deriving DecidableEq, Repr

/-- Client payload of `create_shared_object` (`data.id` optional). -/
structure ObjectDescriptor where
  id : Option String
  type : Option String
  position : Option Vec3
  rotation : Option Vec3
  scale : Option Vec3
  properties : Option Props
deriving DecidableEq, Repr

/-- Client payload of `update_shared_object`: `Object.assign` copies exactly
the keys present in `data.updates`, so each field is an outer Option (is
the key supplied?) around the value assigned to it. -/
structure ObjectUpdates where
  id : Option String
  type : Option (Option String)
  position : Option (Option Vec3)
  rotation : Option (Option Vec3)
  scale : Option (Option Vec3)
  properties : Option (Option Props)
  createdBy : Option UserId
  createdAt : Option Nat
deriving DecidableEq, Repr

/-- `Object.assign(object, data.updates)`: each supplied key overwrites the
object's field, each unsupplied key leaves the existing value. -/
def mergeObject (o : RelaySharedObject) (u : ObjectUpdates) : RelaySharedObject :=
  { id := u.id.getD o.id,
    type := u.type.getD o.type,
    position := u.position.getD o.position,
    rotation := u.rotation.getD o.rotation,
    scale := u.scale.getD o.scale,
    properties := u.properties.getD o.properties,
    createdBy := u.createdBy.getD o.createdBy,
    createdAt := u.createdAt.getD o.createdAt }

/-- One `vrSessions` entry: the relay-side room. -/
structure RelayRoom where
  id : String
  users : List UserId
  createdAt : Nat
  sharedObjects : List (String × RelaySharedObject)
deriving DecidableEq, Repr

/-- The fresh room record `join_vr_session` installs when the id is absent. -/
def freshRoom (sessionId : String) (now : Nat) : RelayRoom :=
  { id := sessionId, users := [], createdAt := now, sharedObjects := [] }

/-- One message of the in-memory per-room chat log. -/
structure RelayChatMsg where
  id : String
  userId : UserId
  username : String
  message : String
  timestamp : Nat
  room : String
deriving DecidableEq, Repr

/-- Outbound event payloads of the relay handlers modelled here. -/
inductive EventPayload where
  | vrSessionJoined (sessionId : String) (users : List UserId)
      (objects : List RelaySharedObject)
  | userJoinedVr (userId : UserId) (username : String)
  | sharedObjectCreated (obj : RelaySharedObject)
  | sharedObjectUpdated (id : String) (updates : ObjectUpdates)
  | chatMessage (msg : RelayChatMsg)
deriving DecidableEq, Repr

/-- One outbound broadcast: to whom the payload is delivered. -/
inductive Emit where
  | toCaller (uid : UserId) (p : EventPayload)
  | toRoomExceptCaller (room : String) (caller : UserId) (p : EventPayload)
  | toRoomAll (room : String) (p : EventPayload)
  | toAll (p : EventPayload)
deriving DecidableEq, Repr

/-- The relay's process-local state. -/
structure RelayState where
  activeUsers : List (UserId × RelayUser)
  vrSessions : List (String × RelayRoom)
  chatRooms : List (String × List RelayChatMsg)
  socketRooms : List (UserId × List String)
deriving DecidableEq, Repr

/-- The `join_vr_session` handler.  In source order: `socket.leave` of the
prior transport room if any, `socket.join(sessionId)`, record
`user.currentRoom`, create the relay room if absent, add the user to its
member set, confirm to the caller and notify the room.  Note that the prior
relay room's `users` set is not touched — only the transport-level room
membership changes. -/
def join_vr_session (st : RelayState) (uid : UserId) (sessionId : String)
    (now : Nat) : RelayState × List Emit :=
  match mapGet st.activeUsers uid with
  | none => (st, [])
  | some user =>
    let rooms0 := (mapGet st.socketRooms uid).getD []
    let rooms1 := match user.currentRoom with
      | some prev => rooms0.filter (fun r => !(r == prev))
      | none => rooms0
    let rooms2 := if rooms1.contains sessionId then rooms1 else rooms1 ++ [sessionId]
    let sessions1 :=
      if mapHas st.vrSessions sessionId then st.vrSessions
      else mapSet st.vrSessions sessionId (freshRoom sessionId now)
    let base := (mapGet sessions1 sessionId).getD (freshRoom sessionId now)
    let room1 := { base with users := setAdd base.users uid }
    ({ st with
       activeUsers := mapSet st.activeUsers uid { user with currentRoom := some sessionId },
       vrSessions := mapSet sessions1 sessionId room1,
       socketRooms := mapSet st.socketRooms uid rooms2 },
     [Emit.toCaller uid (.vrSessionJoined sessionId room1.users
        (room1.sharedObjects.map (fun p => p.2))),
      Emit.toRoomExceptCaller sessionId uid (.userJoinedVr uid user.username)])

/-- The object record built by `create_shared_object`. -/
def buildObject (objectId : String) (d : ObjectDescriptor) (uid : UserId)
    (now : Nat) : RelaySharedObject :=
  { id := objectId, type := d.type, position := d.position,
    rotation := d.rotation, scale := d.scale, properties := d.properties,
    createdBy := uid, createdAt := now }

/-- The `create_shared_object` handler: requires a connected user who is in
an existing relay room; `objectId` is `data.id || uuid()` (`genId` stands
for the generated uuid); `Map.set` installs the object, overwriting any
object already stored under that id; the full object is broadcast to the
entire room, caller included. -/
def create_shared_object (st : RelayState) (uid : UserId) (d : ObjectDescriptor)
    (genId : String) (now : Nat) : RelayState × List Emit :=
  match mapGet st.activeUsers uid with
  | none => (st, [])
  | some user =>
    match user.currentRoom with
    | none => (st, [])
    | some roomId =>
      if mapHas st.vrSessions roomId then
        let room := (mapGet st.vrSessions roomId).getD (freshRoom roomId now)
        let objectId := jsOrStr d.id genId
        let obj := buildObject objectId d uid now
        let room2 := { room with sharedObjects := mapSet room.sharedObjects objectId obj }
        ({ st with vrSessions := mapSet st.vrSessions roomId room2 },
         [Emit.toRoomAll roomId (.sharedObjectCreated obj)])
      else (st, [])

/-- The `update_shared_object` handler: requires a connected user in an
existing relay room and an object map entry for `data.id`; merges the
supplied fields over the stored object and broadcasts the patch to the room
excluding the caller; in every other case it is a silent no-op. -/
def update_shared_object (st : RelayState) (uid : UserId) (objId : String)
    (upd : ObjectUpdates) : RelayState × List Emit :=
  match mapGet st.activeUsers uid with
  | none => (st, [])
  | some user =>
    match user.currentRoom with
    | none => (st, [])
    | some roomId =>
      match mapGet st.vrSessions roomId with
      | none => (st, [])
      | some room =>
        match mapGet room.sharedObjects objId with
        | none => (st, [])
        | some obj =>
          let room2 :=
            { room with sharedObjects := mapSet room.sharedObjects objId (mergeObject obj upd) }
          ({ st with vrSessions := mapSet st.vrSessions roomId room2 },
           [Emit.toRoomExceptCaller roomId uid (.sharedObjectUpdated objId upd)])

/-- Combined server state for the chat handler: the relay maps plus the
durable chat collection (which the socket handler never touches). -/
structure AppState where
  relay : RelayState
  chatDb : List StoredChatMessage
deriving DecidableEq, Repr

/-- The message record literal built by the `send_chat_message` handler. -/
def mkRelayChatMsg (msgId : String) (uid : UserId) (username : String)
    (body : String) (now : Nat) (room : String) : RelayChatMsg :=
  { id := msgId, userId := uid, username := username,
    message := body, timestamp := now, room := room }

/-- The `send_chat_message` handler: build the message record
(`data.room || 'global'` as room tag), append it to the in-memory per-room
log, cap the log at the last 100 entries (`splice(0, length - 100)`), and
broadcast — to everyone for the global room, to the room otherwise.
Nothing is written to the durable chat collection. -/
def send_chat_message (ap : AppState) (uid : UserId) (body : String)
    (roomTag : Option String) (now : Nat) (msgId : String) :
    AppState × List Emit :=
  match mapGet ap.relay.activeUsers uid with
  | none => (ap, [])
  | some user =>
    let room := jsOrStr roomTag "global"
    let msg := mkRelayChatMsg msgId uid user.username body now room
    let appended := ((mapGet ap.relay.chatRooms room).getD []) ++ [msg]
    let capped :=
      if appended.length > 100 then appended.drop (appended.length - 100)
      else appended
    ({ ap with relay :=
         { ap.relay with chatRooms := mapSet ap.relay.chatRooms room capped } },
     if room == "global" then [Emit.toAll (.chatMessage msg)]
     else [Emit.toRoomAll room (.chatMessage msg)])

/-! ## Relay fixtures -/

/-- Connected user 1, currently in room "A". -/
def exRelayUserA : RelayUser :=
  { socketId := "sock1", username := "alice", joinedAt := 0,
    currentRoom := some "A", vrPosition := none, vrRotation := none }

/-- Connected user 2, currently in room "A". -/
def exRelayUserB : RelayUser :=
  { socketId := "sock2", username := "bob", joinedAt := 0,
    currentRoom := some "A", vrPosition := none, vrRotation := none }

/-- Relay state: users 1 and 2 connected, both members of room "A". -/
def exRelaySt : RelayState :=
  { activeUsers := [(1, exRelayUserA), (2, exRelayUserB)],
    vrSessions := [("A", { id := "A", users := [1, 2], createdAt := 0, sharedObjects := [] })],
    chatRooms := [],
    socketRooms := [(1, ["A"]), (2, ["A"])] }

/-! ## Combined-state and shared-object fixtures -/

/-- Combined state fixture for the chat handler. -/
def exAppSt : AppState := { relay := exRelaySt, chatDb := exChatStore }

/-- A room with one object (re)placed in its object map. -/
def roomWithObject (room : RelayRoom) (objId : String) (obj : RelaySharedObject) :
    RelayRoom :=
  { room with sharedObjects := mapSet room.sharedObjects objId obj }

/-- The object created in the relay fixtures. -/
def exDesc : ObjectDescriptor :=
  { id := some "o1", type := some "box", position := some ⟨0, 0, 0⟩,
    rotation := none, scale := none, properties := some [("color", "red")] }

/-- Relay state whose room "A" holds one shared object "o1". -/
def exObjSt : RelayState :=
  { exRelaySt with vrSessions :=
      [("A", { id := "A", users := [1, 2], createdAt := 0,
               sharedObjects := [("o1", buildObject "o1" exDesc 1 3)] })] }

/-- A patch supplying only the position field. -/
def exUpd : ObjectUpdates :=
  { id := none, type := none, position := some (some ⟨1, 2, 3⟩),
    rotation := none, scale := none, properties := none,
    createdBy := none, createdAt := none }

/-- Second descriptor for the duplicate-id creation, with a different type. -/
def exDesc2 : ObjectDescriptor :=
  { id := some "o1", type := some "sphere", position := none,
    rotation := none, scale := none, properties := none }

/-! ## Theorems

Map-helper lemmas first, then the claim theorems grouped by claim with
their witnesses and counterexamples. -/

theorem mapGet_mapSet_self {K V : Type} [BEq K] [LawfulBEq K]
    (m : List (K × V)) (k : K) (v : V) : mapGet (mapSet m k v) k = some v := by
  induction m with
  | nil => simp [mapGet, mapSet]
  | cons p rest ih =>
    by_cases h : p.1 == k
    · simp [mapGet, mapSet, h]
    · simp only [mapSet, h, if_neg]
      simp only [mapGet, h, if_neg]
      exact ih

theorem mapGet_mapSet_ne {K V : Type} [BEq K] [LawfulBEq K]
    (m : List (K × V)) (k k' : K) (v : V) (h : k ≠ k') :
    mapGet (mapSet m k v) k' = mapGet m k' := by
  induction m with
  | nil => simp [mapGet, mapSet, h]
  | cons p rest ih =>
    by_cases hp : p.1 == k
    · have hpk : p.1 = k := eq_of_beq hp
      simp [mapGet, mapSet, hp, hpk, h]
    · simp only [mapSet, hp, if_neg]
      by_cases hp' : p.1 == k'
      · simp [mapGet, hp']
      · simp only [mapGet, hp', if_neg]
        exact ih

theorem mapHas_eq_isSome {K V : Type} [BEq K]
    (m : List (K × V)) (k : K) : mapHas m k = (mapGet m k).isSome := by
  induction m with
  | nil => simp [mapGet, mapHas]
  | cons p rest ih =>
    by_cases hp : p.1 == k
    · simp [mapGet, mapHas, hp]
    · simp [mapGet, mapHas, hp, ih]

theorem mapHas_mapSet_self {K V : Type} [BEq K] [LawfulBEq K]
    (m : List (K × V)) (k : K) (v : V) : mapHas (mapSet m k v) k = true := by
  rw [mapHas_eq_isSome, mapGet_mapSet_self]
  rfl

theorem mem_setAdd {A : Type} [BEq A] [LawfulBEq A] (l : List A) (a : A) :
    a ∈ setAdd l a := by
  unfold setAdd
  by_cases h : l.contains a
  · rw [if_pos h]
    exact List.mem_of_elem_eq_true h
  · rw [if_neg h]
    exact List.mem_append_right _ (List.mem_singleton.mpr rfl)

/-- C1: `canUserJoin` returns true iff the user is not banned, the member
count is strictly below capacity, and either no invite is required or the
user is on the invited list. -/
theorem canUserJoin_iff (s : VRSession) (u : UserId) :
    canUserJoin s u = true ↔
      ((∀ b ∈ s.bannedUsers, b.user ≠ u) ∧
       s.currentUsers.length < s.maxUsers ∧
       (s.settings.requireInvite = false ∨ u ∈ s.invitedUsers)) := by
  unfold canUserJoin
  by_cases hb : s.bannedUsers.any (fun banned => banned.user == u)
  · simp only [hb, if_true]
    constructor
    · intro h; exact absurd h (by simp)
    · rintro ⟨hnb, -, -⟩
      rcases List.any_eq_true.mp hb with ⟨b, hbmem, hbeq⟩
      exact absurd (eq_of_beq hbeq) (hnb b hbmem)
  · simp only [hb, if_false]
    have hnb : ∀ b ∈ s.bannedUsers, b.user ≠ u := by
      intro b hbmem heq
      exact hb (List.any_eq_true.mpr ⟨b, hbmem, by simp [heq]⟩)
    by_cases hc : s.currentUsers.length ≥ s.maxUsers
    · simp only [hc, if_true]
      constructor
      · intro h; exact absurd h (by simp)
      · rintro ⟨-, hlt, -⟩; omega
    · simp only [hc, if_false]
      have hlt : s.currentUsers.length < s.maxUsers := by omega
      by_cases hi : s.settings.requireInvite && !(s.invitedUsers.contains u)
      · simp only [hi, if_true]
        constructor
        · intro h; exact absurd h (by simp)
        · rintro ⟨-, -, hinv⟩
          rcases Bool.and_eq_true_iff.mp hi with ⟨hreq, hnc⟩
          rcases hinv with hreq' | hmem
          · rw [hreq'] at hreq; exact Bool.noConfusion hreq
          · have hcm : s.invitedUsers.contains u = true := List.elem_eq_true_of_mem hmem
            rw [hcm] at hnc; exact Bool.noConfusion hnc
      · simp only [hi, if_false]
        constructor
        · intro _
          refine ⟨hnb, hlt, ?_⟩
          by_cases hreq : s.settings.requireInvite
          · right
            by_cases hcon : s.invitedUsers.contains u
            · exact List.mem_of_elem_eq_true hcon
            · have hcf : s.invitedUsers.contains u = false := by
                revert hcon; cases s.invitedUsers.contains u <;> simp
              exact absurd (by rw [hreq, hcf]; rfl) hi
          · left; exact Bool.not_eq_true _ ▸ hreq
        · intro _; rfl

theorem sessionQueryActive_inactive (s : VRSession) (reqId : String)
    (h : s.isActive = false) : sessionQueryActive s reqId = false := by
  simp [sessionQueryActive, h]

theorem sessionQueryActiveHost_inactive (s : VRSession) (reqId : String) (c : UserId)
    (h : s.isActive = false) : sessionQueryActiveHost s reqId c = false := by
  simp [sessionQueryActiveHost, h]

theorem fetchSession_inactive (s : VRSession) (reqId : String) (c : Option UserId)
    (h : s.isActive = false) : fetchSession s reqId c = (.notFound, s) := by
  simp [fetchSession, sessionQueryActive_inactive s reqId h]

theorem joinSession_inactive (s : VRSession) (reqId : String) (u : UserId)
    (invite : Option String) (p : Option Vec3) (a : Option String) (rp : Vec3)
    (da : Option String) (now : Nat) (h : s.isActive = false) :
    joinSession s reqId u invite p a rp da now = (.notFound, s) := by
  simp [joinSession, sessionQueryActive_inactive s reqId h]

theorem leaveSession_inactive (s : VRSession) (reqId : String) (u : UserId) (now : Nat)
    (h : s.isActive = false) : leaveSession s reqId u now = (.notFound, s) := by
  simp [leaveSession, sessionQueryActive_inactive s reqId h]

theorem updateSession_inactive (s : VRSession) (reqId : String) (c : UserId)
    (upd : SessionUpdates) (hv : validSessionUpdates upd = true)
    (h : s.isActive = false) : updateSession s reqId c upd = (.notFound, s) := by
  simp [updateSession, hv, sessionQueryActiveHost_inactive s reqId c h]

theorem updateSession_inactive_state (s : VRSession) (reqId : String) (c : UserId)
    (upd : SessionUpdates) (h : s.isActive = false) :
    (updateSession s reqId c upd).2 = s := by
  unfold updateSession
  by_cases hv : validSessionUpdates upd
  · simp [hv, sessionQueryActiveHost_inactive s reqId c h]
  · simp [hv]

theorem endSession_inactive (s : VRSession) (reqId : String) (c : UserId) (now : Nat)
    (h : s.isActive = false) : endSession s reqId c now = (.notFound, s) := by
  simp [endSession, sessionQueryActiveHost_inactive s reqId c h]

theorem regenInviteCode_inactive (s : VRSession) (reqId : String) (c : UserId)
    (code : String) (h : s.isActive = false) :
    regenInviteCode s reqId c code = (.notFound, s) := by
  simp [regenInviteCode, sessionQueryActiveHost_inactive s reqId c h]

theorem applyOp_inactive (s : VRSession) (op : SessionOp) (h : s.isActive = false) :
    applyOp s op = s := by
  cases op with
  | fetch reqId caller =>
      simp [applyOp, fetchSession_inactive s reqId caller h]
  | join reqId u invite p a rp da now =>
      simp [applyOp, joinSession_inactive s reqId u invite p a rp da now h]
  | leave reqId u now =>
      simp [applyOp, leaveSession_inactive s reqId u now h]
  | update reqId c upd =>
      simp [applyOp, updateSession_inactive_state s reqId c upd h]
  | endOp reqId c now =>
      simp [applyOp, endSession_inactive s reqId c now h]
  | regen reqId c code =>
      simp [applyOp, regenInviteCode_inactive s reqId c code h]

/-! ## C2 — deactivation on the emptying leave -/

/-- C2 counterexample: the leave that empties `exSession` at time 1500 ms
stamps `endedAt = 1500` over `createdAt = 0` but stores `duration = 1`
(whole seconds), not `endedAt - createdAt = 1500`, so the claimed equation
`duration = endedAt - createdAt` fails on this input. -/
theorem duration_is_floor_seconds_not_difference :
    (leaveSession exSession "s1" 1 1500).2.isActive = false ∧
    (leaveSession exSession "s1" 1 1500).2.endedAt = some 1500 ∧
    (leaveSession exSession "s1" 1 1500).2.createdAt = 0 ∧
    (leaveSession exSession "s1" 1 1500).2.duration = some 1 ∧
    some ((1500 : Int) - 0) ≠ (leaveSession exSession "s1" 1 1500).2.duration := by
  refine ⟨by decide, by decide, by decide, by decide, by decide⟩

/-- C2 (amended): the leave operation that empties the member list of an
active session deactivates it, stamps `endedAt := now`, and fixes
`duration := floor((endedAt - createdAt) / 1000)` (seconds, from
millisecond timestamps); and once `isActive` is false every session-store
operation leaves the record unchanged, so the deactivation happens exactly
once and `endedAt` / `duration` are never revisited. -/
theorem session_deactivation_on_empty_leave
    (s : VRSession) (u : UserId) (now : Nat)
    (hAct : s.isActive = true)
    (hEmpty : s.currentUsers.filter (fun m => !(m.user == u)) = []) :
    ((leaveSession s s.sessionId u now).2.isActive = false ∧
     (leaveSession s s.sessionId u now).2.endedAt = some now ∧
     (leaveSession s s.sessionId u now).2.duration =
       some (((now : Int) - (s.createdAt : Int)).fdiv 1000) ∧
     (leaveSession s s.sessionId u now).2.createdAt = s.createdAt) ∧
    (∀ t : VRSession, t.isActive = false → ∀ op : SessionOp, applyOp t op = t) := by
  constructor
  · have hq : sessionQueryActive s s.sessionId = true := by
      simp [sessionQueryActive, hAct]
    simp [leaveSession, hq, hEmpty]
  · intro t ht op
    exact applyOp_inactive t op ht

/-- C2 witness: the amended theorem applied to `exSession`, user 1 leaving
at 1500 ms. -/
theorem session_deactivation_on_empty_leave_witness :
    exSession.isActive = true ∧
    exSession.currentUsers.filter (fun m => !(m.user == 1)) = [] ∧
    (leaveSession exSession exSession.sessionId 1 1500).2.isActive = false ∧
    (leaveSession exSession exSession.sessionId 1 1500).2.endedAt = some 1500 ∧
    (leaveSession exSession exSession.sessionId 1 1500).2.duration =
      some (((1500 : Int) - ((exSession.createdAt : Nat) : Int)).fdiv 1000) := by
  have h := session_deactivation_on_empty_leave exSession 1 1500 (by decide) (by decide)
  exact ⟨by decide, by decide, h.1.1, h.1.2.1, h.1.2.2.1⟩

/-! ## C6 — joining a full session -/

/-- C6 counterexample: user 3 joining the full session and user 3 joining
the session that banned them receive the identical outcome and identical
HTTP surface (403, generic message): the capacity failure is not distinct
from other authorization failures. -/
theorem capacity_error_not_distinct :
    (joinSession exFullSession "s1" 3 none none none ⟨0, 0, 0⟩ none 10).1 =
      ApiResult.cannotJoin ∧
    (joinSession exBanSession "s1" 3 none none none ⟨0, 0, 0⟩ none 10).1 =
      ApiResult.cannotJoin ∧
    joinHttp (joinSession exFullSession "s1" 3 none none none ⟨0, 0, 0⟩ none 10).1 =
      joinHttp (joinSession exBanSession "s1" 3 none none none ⟨0, 0, 0⟩ none 10).1 := by
  refine ⟨by decide, by decide, by decide⟩

/-- C6 (amended): a join attempt by a non-member on a full active session
always fails, but it is surfaced as the generic 403 response
"Cannot join this session" shared with ban and missing-invite failures,
not as a distinct capacity error; the record is unchanged. -/
theorem join_full_session_fails
    (s : VRSession) (u : UserId) (invite : Option String) (p : Option Vec3)
    (a : Option String) (rp : Vec3) (da : Option String) (now : Nat)
    (hAct : s.isActive = true)
    (hFull : s.currentUsers.length = s.maxUsers)
    (_hNotMember : ∀ m ∈ s.currentUsers, m.user ≠ u) :
    joinSession s s.sessionId u invite p a rp da now = (ApiResult.cannotJoin, s) ∧
    joinHttp ApiResult.cannotJoin = (403, "Cannot join this session") := by
  have hq : sessionQueryActive s s.sessionId = true := by
    simp [sessionQueryActive, hAct]
  have hcj : canUserJoin s u = false := by
    unfold canUserJoin
    by_cases hb : s.bannedUsers.any (fun banned => banned.user == u)
    · simp [hb]
    · simp [hb, hFull.ge]
  refine ⟨?_, rfl⟩
  simp [joinSession, hq, hcj]

/-- C6 witness: the amended theorem applied to the full session and
non-member user 3. -/
theorem join_full_session_fails_witness :
    exFullSession.isActive = true ∧
    exFullSession.currentUsers.length = exFullSession.maxUsers ∧
    (∀ m ∈ exFullSession.currentUsers, m.user ≠ 3) ∧
    joinSession exFullSession exFullSession.sessionId 3 none none none
      ⟨0, 0, 0⟩ none 10 = (ApiResult.cannotJoin, exFullSession) := by
  have h := join_full_session_fails exFullSession 3 none none none ⟨0, 0, 0⟩ none 10
    (by decide) (by decide) (by decide)
  exact ⟨by decide, by decide, by decide, h.1⟩

/-! ## C10 — ended sessions are unreachable -/

/-- C10: every session-store operation addressing a session whose
`isActive` flag is false returns the not-found outcome and leaves the
record unchanged. -/
theorem inactive_session_unreachable (s : VRSession) (h : s.isActive = false) :
    (∀ reqId caller, fetchSession s reqId caller = (ApiResult.notFound, s)) ∧
    (∀ reqId u invite p a rp da now,
      joinSession s reqId u invite p a rp da now = (ApiResult.notFound, s)) ∧
    (∀ reqId u now, leaveSession s reqId u now = (ApiResult.notFound, s)) ∧
    (∀ reqId c upd, validSessionUpdates upd = true →
      updateSession s reqId c upd = (ApiResult.notFound, s)) ∧
    (∀ reqId c now, endSession s reqId c now = (ApiResult.notFound, s)) ∧
    (∀ reqId c code, regenInviteCode s reqId c code = (ApiResult.notFound, s)) := by
  refine ⟨?_, ?_, ?_, ?_, ?_, ?_⟩
  · intro reqId caller; exact fetchSession_inactive s reqId caller h
  · intro reqId u invite p a rp da now
    exact joinSession_inactive s reqId u invite p a rp da now h
  · intro reqId u now; exact leaveSession_inactive s reqId u now h
  · intro reqId c upd hv; exact updateSession_inactive s reqId c upd hv h
  · intro reqId c now; exact endSession_inactive s reqId c now h
  · intro reqId c code; exact regenInviteCode_inactive s reqId c code h

/-- C10 witness: all six operations applied to the ended session. -/
theorem inactive_session_unreachable_witness :
    exEndedSession.isActive = false ∧
    fetchSession exEndedSession "s1" none = (ApiResult.notFound, exEndedSession) ∧
    joinSession exEndedSession "s1" 2 none none none ⟨0, 0, 0⟩ none 7 =
      (ApiResult.notFound, exEndedSession) ∧
    leaveSession exEndedSession "s1" 1 7 = (ApiResult.notFound, exEndedSession) ∧
    updateSession exEndedSession "s1" 1 ⟨none, none, none, none⟩ =
      (ApiResult.notFound, exEndedSession) ∧
    endSession exEndedSession "s1" 1 7 = (ApiResult.notFound, exEndedSession) ∧
    regenInviteCode exEndedSession "s1" 1 "ABC123" =
      (ApiResult.notFound, exEndedSession) := by
  have h := inactive_session_unreachable exEndedSession (by decide)
  exact ⟨by decide, h.1 "s1" none, h.2.1 "s1" 2 none none none ⟨0, 0, 0⟩ none 7,
         h.2.2.1 "s1" 1 7, h.2.2.2.1 "s1" 1 ⟨none, none, none, none⟩ (by decide),
         h.2.2.2.2.1 "s1" 1 7, h.2.2.2.2.2 "s1" 1 "ABC123"⟩

theorem mem_insertByCreatedAtDesc (a m : StoredChatMessage)
    (l : List StoredChatMessage) :
    a ∈ insertByCreatedAtDesc m l ↔ a = m ∨ a ∈ l := by
  induction l with
  | nil => simp [insertByCreatedAtDesc]
  | cons x xs ih =>
    unfold insertByCreatedAtDesc
    by_cases h : x.createdAt < m.createdAt
    · rw [if_pos h]
      simp [List.mem_cons]
    · rw [if_neg h]
      simp only [List.mem_cons, ih]
      tauto

theorem mem_sortByCreatedAtDesc (a : StoredChatMessage)
    (l : List StoredChatMessage) :
    a ∈ sortByCreatedAtDesc l ↔ a ∈ l := by
  induction l with
  | nil => simp [sortByCreatedAtDesc]
  | cons x xs ih =>
    show a ∈ insertByCreatedAtDesc x (sortByCreatedAtDesc xs) ↔ _
    rw [mem_insertByCreatedAtDesc, ih]
    simp [List.mem_cons]

theorem mem_historyQuery_live (a : StoredChatMessage)
    (store : List StoredChatMessage) (room : String) (page limit : Nat)
    (h : a ∈ historyQuery store room page limit) : a.deletedAt = none := by
  unfold historyQuery at h
  rw [List.mem_reverse] at h
  have h1 := List.mem_of_mem_take h
  have h2 := List.mem_of_mem_drop h1
  have h3 := (mem_sortByCreatedAtDesc a _).mp h2
  have h4 := (List.mem_filter.mp h3).2
  rcases Bool.and_eq_true_iff.mp h4 with ⟨-, hdel⟩
  exact eq_of_beq hdel

theorem liveMessages_idem (store : List StoredChatMessage) :
    liveMessages (liveMessages store) = liveMessages store := by
  unfold liveMessages
  rw [List.filter_filter]
  simp

/-! ## C5 — soft-deleted messages are hidden but retained -/

/-- C5: a soft-deleted message never appears in the paged history result;
the room-listing aggregation is unchanged by restricting the collection to
its non-deleted messages (so deleted messages contribute nothing to it);
and a soft delete keeps the collection size, so deleted messages still
count toward the total stored message count. -/
theorem soft_deleted_messages_hidden
    (store : List StoredChatMessage) (m : StoredChatMessage) (room : String)
    (page limit : Nat) (msgId : String) (uid : UserId) (now : Nat)
    (_hMem : m ∈ store) (hDel : m.deletedAt ≠ none) :
    m ∉ historyQuery store room page limit ∧
    roomsQuery store = roomsQuery (liveMessages store) ∧
    (softDeleteMessage store msgId uid now).2.length = store.length := by
  refine ⟨?_, ?_, ?_⟩
  · intro hmem
    exact hDel (mem_historyQuery_live m store room page limit hmem)
  · show roomsQuery store = roomsQuery (liveMessages store)
    unfold roomsQuery
    rw [liveMessages_idem]
  · unfold softDeleteMessage
    cases findOwnLiveMessage store msgId uid with
    | none => rfl
    | some x => simp

/-- C5 witness: the deleted message of the concrete two-message collection
is hidden from history and aggregation but still counted. -/
theorem soft_deleted_messages_hidden_witness :
    exDeletedMsg ∈ exChatStore ∧
    exDeletedMsg.deletedAt ≠ none ∧
    exDeletedMsg ∉ historyQuery exChatStore "global" 1 50 ∧
    roomsQuery exChatStore = roomsQuery (liveMessages exChatStore) ∧
    (softDeleteMessage exChatStore "m1" 1 9).2.length = exChatStore.length := by
  have h := soft_deleted_messages_hidden exChatStore exDeletedMsg "global" 1 50
    "m1" 1 9 (by decide) (by decide)
  exact ⟨by decide, by decide, h.1, h.2.1, h.2.2⟩

/-! ## C4 — the fifteen-minute edit window -/

/-- C4: for a message located by `findOne({ _id, user, deletedAt: null })`
(author's own, not soft-deleted), an edit strictly more than fifteen
minutes after creation always fails and leaves the collection unchanged,
while an edit strictly inside the window with a well-formed body (1..1000
chars, non-whitespace) succeeds and rewrites exactly the message body and
the edit timestamp of that one document, leaving every other field and
every other document unchanged. -/
theorem edit_window_fifteen_minutes
    (store : List StoredChatMessage) (msgId : String) (uid : UserId)
    (newBody : String) (m : StoredChatMessage)
    (hFound : findOwnLiveMessage store msgId uid = some m) :
    (∀ now : Nat, m.createdAt + 15 * 60 * 1000 < now →
      (editMessage store msgId uid newBody now).1 ≠ EditResult.ok ∧
      (editMessage store msgId uid newBody now).2 = store) ∧
    (∀ now : Nat, now < m.createdAt + 15 * 60 * 1000 →
      1 ≤ newBody.length → newBody.length ≤ 1000 →
      (strTrim newBody).isEmpty = false →
      (editMessage store msgId uid newBody now).1 = EditResult.ok ∧
      (editMessage store msgId uid newBody now).2 = store.map (fun x =>
        if x.id == m.id then
          { x with message := strTrim newBody, editedAt := some now }
        else x)) := by
  constructor
  · intro now hOld
    unfold editMessage
    by_cases hv : newBody.length < 1 ∨ 1000 < newBody.length
    · rw [if_pos hv]
      exact ⟨fun h => EditResult.noConfusion h, rfl⟩
    · rw [if_neg hv, hFound]
      have hc : m.createdAt < now - 15 * 60 * 1000 := by omega
      simp [hc]
  · intro now hYoung hLo hHi hTrim
    unfold editMessage
    rw [if_neg (by omega), hFound]
    have hc : ¬(m.createdAt < now - 15 * 60 * 1000) := by omega
    simp [hc, hTrim]

/-- C4 witness: editing the concrete message at 1000 ms (inside the window)
succeeds; editing it at 1000000 ms (outside) fails. -/
theorem edit_window_fifteen_minutes_witness :
    findOwnLiveMessage exChatStore "m1" 1 = some exChatMsg ∧
    exChatMsg.createdAt + 15 * 60 * 1000 < 1000000 ∧
    (editMessage exChatStore "m1" 1 "hi" 1000000).1 ≠ EditResult.ok ∧
    (editMessage exChatStore "m1" 1 "hi" 1000000).2 = exChatStore ∧
    1000 < exChatMsg.createdAt + 15 * 60 * 1000 ∧
    (editMessage exChatStore "m1" 1 "hi" 1000).1 = EditResult.ok := by
  have h := edit_window_fifteen_minutes exChatStore "m1" 1 "hi" exChatMsg (by decide)
  have hOld := h.1 1000000 (by decide)
  have hNew := h.2 1000 (by decide) (by decide) (by decide) (by decide)
  exact ⟨by decide, by decide, hOld.1, hOld.2, by decide, hNew.1⟩

theorem mapGet_eq_none_of_mapHas_false {K V : Type} [BEq K]
    (m : List (K × V)) (k : K) (h : mapHas m k = false) : mapGet m k = none := by
  cases hmk : mapGet m k with
  | none => rfl
  | some v =>
    rw [mapHas_eq_isSome, hmk] at h
    exact Bool.noConfusion h

theorem mapSet_mapSet_self {K V : Type} [BEq K] [LawfulBEq K]
    (m : List (K × V)) (k : K) (v w : V) :
    mapSet (mapSet m k v) k w = mapSet m k w := by
  induction m with
  | nil => simp [mapSet]
  | cons p rest ih =>
    by_cases hp : p.1 == k
    · simp [mapSet, hp]
    · simp [mapSet, hp, ih]

/-! ## C3 — join_vr_session -/

/-- C3 counterexample: user 1, currently in room "A", joins room "B".  The
relay's room table still lists user 1 in room "A" afterwards (its entry is
byte-for-byte unchanged), refuting the claim that the user identifier is
removed from the prior room's member set. -/
theorem prior_room_membership_retained :
    exRelayUserA.currentRoom = some "A" ∧
    ((mapGet (join_vr_session exRelaySt 1 "B" 7).1.vrSessions "A").map
      (fun r => r.users)) = some [1, 2] ∧
    ((mapGet (join_vr_session exRelaySt 1 "B" 7).1.vrSessions "B").map
      (fun r => r.users)) = some [1] := by
  refine ⟨by decide, by decide, by decide⟩

/-- C3 (amended): for a connected user, `join_vr_session(roomId)` records
the connection's current room, creates a relay Room for `roomId` if absent,
adds the user to that Room's member set, and switches the transport-level
socket room (the prior transport room is left, `roomId` is joined) — but
the prior Room's member set in the relay's room table is not updated: every
room entry other than `roomId` is exactly as before, so the user identifier
stays in the prior room's member set until disconnect. -/
theorem join_vr_session_spec
    (st : RelayState) (uid : UserId) (roomId : String) (now : Nat)
    (user : RelayUser) (hUser : mapGet st.activeUsers uid = some user) :
    mapGet (join_vr_session st uid roomId now).1.activeUsers uid =
      some { user with currentRoom := some roomId } ∧
    mapGet (join_vr_session st uid roomId now).1.vrSessions roomId =
      some { (mapGet st.vrSessions roomId).getD (freshRoom roomId now) with
             users := setAdd
               ((mapGet st.vrSessions roomId).getD (freshRoom roomId now)).users uid } ∧
    uid ∈ setAdd ((mapGet st.vrSessions roomId).getD (freshRoom roomId now)).users uid ∧
    (∀ r : String, r ≠ roomId →
      mapGet (join_vr_session st uid roomId now).1.vrSessions r =
        mapGet st.vrSessions r) ∧
    roomId ∈ (mapGet (join_vr_session st uid roomId now).1.socketRooms uid).getD [] ∧
    (∀ prev : String, user.currentRoom = some prev → prev ≠ roomId →
      prev ∉ (mapGet (join_vr_session st uid roomId now).1.socketRooms uid).getD []) := by
  have hbase :
      (mapGet (if mapHas st.vrSessions roomId then st.vrSessions
        else mapSet st.vrSessions roomId (freshRoom roomId now)) roomId).getD
          (freshRoom roomId now) =
      (mapGet st.vrSessions roomId).getD (freshRoom roomId now) := by
    by_cases hh : mapHas st.vrSessions roomId
    · rw [if_pos hh]
    · rw [if_neg hh, mapGet_mapSet_self,
        mapGet_eq_none_of_mapHas_false st.vrSessions roomId (Bool.not_eq_true _ ▸ hh)]
      rfl
  simp only [join_vr_session, hUser]
  refine ⟨?_, ?_, ?_, ?_, ?_, ?_⟩
  · exact mapGet_mapSet_self st.activeUsers uid _
  · rw [mapGet_mapSet_self, hbase]
  · exact mem_setAdd _ uid
  · intro r hr
    rw [mapGet_mapSet_ne _ roomId r _ (fun h => hr h.symm)]
    by_cases hh : mapHas st.vrSessions roomId
    · rw [if_pos hh]
    · rw [if_neg hh, mapGet_mapSet_ne _ roomId r _ (fun h => hr h.symm)]
  · rw [mapGet_mapSet_self]
    show roomId ∈ (if _ then _ else _)
    by_cases hc : (match user.currentRoom with
        | some prev => ((mapGet st.socketRooms uid).getD []).filter (fun r => !(r == prev))
        | none => (mapGet st.socketRooms uid).getD []).contains roomId
    · rw [if_pos hc]
      exact List.mem_of_elem_eq_true hc
    · rw [if_neg hc]
      exact List.mem_append_right _ (List.mem_singleton.mpr rfl)
  · intro prev hprev hne
    rw [mapGet_mapSet_self]
    simp only [hprev, Option.getD_some]
    intro hmem
    have hnotFilter :
        prev ∉ ((mapGet st.socketRooms uid).getD []).filter (fun r => !(r == prev)) := by
      intro hf
      have := (List.mem_filter.mp hf).2
      simp at this
    by_cases hc : (((mapGet st.socketRooms uid).getD []).filter
        (fun r => !(r == prev))).contains roomId
    · rw [if_pos hc] at hmem
      exact hnotFilter hmem
    · rw [if_neg hc] at hmem
      rcases List.mem_append.mp hmem with hf | hs
      · exact hnotFilter hf
      · exact hne (List.mem_singleton.mp hs)

/-- C3 witness: the amended theorem applied to the concrete relay state,
user 1 moving from room "A" to room "B". -/
theorem join_vr_session_spec_witness :
    mapGet exRelaySt.activeUsers 1 = some exRelayUserA ∧
    mapGet (join_vr_session exRelaySt 1 "B" 7).1.activeUsers 1 =
      some { exRelayUserA with currentRoom := some "B" } ∧
    mapGet (join_vr_session exRelaySt 1 "B" 7).1.vrSessions "A" =
      mapGet exRelaySt.vrSessions "A" ∧
    "B" ∈ (mapGet (join_vr_session exRelaySt 1 "B" 7).1.socketRooms 1).getD [] ∧
    "A" ∉ (mapGet (join_vr_session exRelaySt 1 "B" 7).1.socketRooms 1).getD [] := by
  have h := join_vr_session_spec exRelaySt 1 "B" 7 exRelayUserA (by decide)
  exact ⟨by decide, h.1, h.2.2.2.1 "A" (by decide), h.2.2.2.2.1,
         h.2.2.2.2.2 "A" (by decide) (by decide)⟩

/-- C7: after `send_chat_message` from a connected user, the target room's
in-memory log equals the suffix of the previous log extended by the new
message, dropping everything but the last 100 entries — i.e. exactly the
most recently appended messages in arrival order, at most 100 of them —
and the durable chat collection is untouched. -/
theorem send_chat_message_caps_log
    (ap : AppState) (uid : UserId) (body : String) (roomTag : Option String)
    (now : Nat) (msgId : String) (user : RelayUser)
    (hUser : mapGet ap.relay.activeUsers uid = some user) :
    mapGet (send_chat_message ap uid body roomTag now msgId).1.relay.chatRooms
        (jsOrStr roomTag "global") =
      some ((((mapGet ap.relay.chatRooms (jsOrStr roomTag "global")).getD []) ++
          [mkRelayChatMsg msgId uid user.username body now (jsOrStr roomTag "global")]).drop
        ((((mapGet ap.relay.chatRooms (jsOrStr roomTag "global")).getD []) ++
          [mkRelayChatMsg msgId uid user.username body now (jsOrStr roomTag "global")]).length
          - 100)) ∧
    ((((mapGet ap.relay.chatRooms (jsOrStr roomTag "global")).getD []) ++
        [mkRelayChatMsg msgId uid user.username body now (jsOrStr roomTag "global")]).drop
      ((((mapGet ap.relay.chatRooms (jsOrStr roomTag "global")).getD []) ++
        [mkRelayChatMsg msgId uid user.username body now (jsOrStr roomTag "global")]).length
        - 100)).length ≤ 100 ∧
    (send_chat_message ap uid body roomTag now msgId).1.chatDb = ap.chatDb := by
  refine ⟨?_, ?_, ?_⟩
  · simp only [send_chat_message, hUser]
    rw [mapGet_mapSet_self]
    by_cases hlen :
        ((((mapGet ap.relay.chatRooms (jsOrStr roomTag "global")).getD []) ++
          [mkRelayChatMsg msgId uid user.username body now (jsOrStr roomTag "global")]).length
          > 100)
    · rw [if_pos hlen]
    · rw [if_neg hlen, Nat.sub_eq_zero_of_le (by omega), List.drop_zero]
  · rw [List.length_drop]
    omega
  · simp only [send_chat_message, hUser]

/-- C7 witness: user 1 sends "hello" with no room tag; the global log holds
exactly the new message and the durable collection is untouched. -/
theorem send_chat_message_caps_log_witness :
    mapGet exAppSt.relay.activeUsers 1 = some exRelayUserA ∧
    mapGet (send_chat_message exAppSt 1 "hello" none 9 "c1").1.relay.chatRooms
      "global" = some [mkRelayChatMsg "c1" 1 "alice" "hello" 9 "global"] ∧
    (send_chat_message exAppSt 1 "hello" none 9 "c1").1.chatDb = exAppSt.chatDb := by
  have h := send_chat_message_caps_log exAppSt 1 "hello" none 9 "c1" exRelayUserA
    (by decide)
  exact ⟨by decide, by decide, h.2.2⟩

/-- C8: when the caller is connected, in a room that exists in the relay
table, and the object id is present in that room's map,
`update_shared_object` replaces the object by the shallow merge of the
supplied fields over the existing one (each unsupplied field keeps its
value) and emits exactly one patch to the room excluding the caller; in
every other case (unknown user, no current room, missing room, missing
object id) the state is returned unchanged and nothing — in particular no
error — is emitted. -/
theorem update_shared_object_spec
    (st : RelayState) (uid : UserId) (objId : String) (upd : ObjectUpdates) :
    (∀ user roomId room obj,
      mapGet st.activeUsers uid = some user →
      user.currentRoom = some roomId →
      mapGet st.vrSessions roomId = some room →
      mapGet room.sharedObjects objId = some obj →
      (update_shared_object st uid objId upd).1 =
        { st with vrSessions :=
            mapSet st.vrSessions roomId (roomWithObject room objId (mergeObject obj upd)) } ∧
      (update_shared_object st uid objId upd).2 =
        [Emit.toRoomExceptCaller roomId uid (.sharedObjectUpdated objId upd)] ∧
      (mergeObject obj upd).id = upd.id.getD obj.id ∧
      (mergeObject obj upd).type = upd.type.getD obj.type ∧
      (mergeObject obj upd).position = upd.position.getD obj.position ∧
      (mergeObject obj upd).rotation = upd.rotation.getD obj.rotation ∧
      (mergeObject obj upd).scale = upd.scale.getD obj.scale ∧
      (mergeObject obj upd).properties = upd.properties.getD obj.properties ∧
      (mergeObject obj upd).createdBy = upd.createdBy.getD obj.createdBy ∧
      (mergeObject obj upd).createdAt = upd.createdAt.getD obj.createdAt) ∧
    (mapGet st.activeUsers uid = none →
      update_shared_object st uid objId upd = (st, [])) ∧
    (∀ user, mapGet st.activeUsers uid = some user →
      user.currentRoom = none →
      update_shared_object st uid objId upd = (st, [])) ∧
    (∀ user roomId, mapGet st.activeUsers uid = some user →
      user.currentRoom = some roomId →
      mapGet st.vrSessions roomId = none →
      update_shared_object st uid objId upd = (st, [])) ∧
    (∀ user roomId room, mapGet st.activeUsers uid = some user →
      user.currentRoom = some roomId →
      mapGet st.vrSessions roomId = some room →
      mapGet room.sharedObjects objId = none →
      update_shared_object st uid objId upd = (st, [])) := by
  refine ⟨?_, ?_, ?_, ?_, ?_⟩
  · intro user roomId room obj h1 h2 h3 h4
    simp only [update_shared_object, h1, h2, h3, h4, roomWithObject]
    simp [mergeObject]
  · intro h1
    simp only [update_shared_object, h1]
  · intro user h1 h2
    simp only [update_shared_object, h1, h2]
  · intro user roomId h1 h2 h3
    simp only [update_shared_object, h1, h2, h3]
  · intro user roomId room h1 h2 h3 h4
    simp only [update_shared_object, h1, h2, h3, h4]

/-- C8 witness: the present case of the theorem on a concrete state: the
position patch is applied, the type is kept, and one patch is broadcast to
room "A" excluding caller 1. -/
theorem update_shared_object_spec_witness :
    mapGet exObjSt.activeUsers 1 = some exRelayUserA ∧
    exRelayUserA.currentRoom = some "A" ∧
    (update_shared_object exObjSt 1 "o1" exUpd).2 =
      [Emit.toRoomExceptCaller "A" 1 (.sharedObjectUpdated "o1" exUpd)] ∧
    (mergeObject (buildObject "o1" exDesc 1 3) exUpd).position = some ⟨1, 2, 3⟩ ∧
    (mergeObject (buildObject "o1" exDesc 1 3) exUpd).type = some "box" ∧
    update_shared_object exObjSt 1 "missing" exUpd = (exObjSt, []) := by
  have h := update_shared_object_spec exObjSt 1 "o1" exUpd
  have hp := h.1 exRelayUserA "A"
    { id := "A", users := [1, 2], createdAt := 0,
      sharedObjects := [("o1", buildObject "o1" exDesc 1 3)] }
    (buildObject "o1" exDesc 1 3) (by decide) (by decide) (by decide) (by decide)
  have hmiss := (update_shared_object_spec exObjSt 1 "missing" exUpd).2.2.2.2
    exRelayUserA "A"
    { id := "A", users := [1, 2], createdAt := 0,
      sharedObjects := [("o1", buildObject "o1" exDesc 1 3)] }
    (by decide) (by decide) (by decide) (by decide)
  exact ⟨by decide, by decide, hp.2.1, hp.2.2.2.2.1, hp.2.2.2.1, hmiss⟩

/-! ## C9 — create_shared_object with a duplicate id overwrites -/

/-- C9: two `create_shared_object` calls in the same room with the same
client-supplied id: the second call replaces the stored object under that
id with the object freshly built from its own descriptor — taking the
second caller as creator — and broadcasts it to the whole room as a normal
creation; there is no conflict rejection. -/
theorem create_same_id_overwrites
    (st : RelayState) (uid1 uid2 : UserId) (d1 d2 : ObjectDescriptor)
    (g1 g2 : String) (t1 t2 : Nat) (oid roomId : String) (u1 u2 : RelayUser)
    (h1 : mapGet st.activeUsers uid1 = some u1)
    (h2 : u1.currentRoom = some roomId)
    (h3 : mapHas st.vrSessions roomId = true)
    (h4 : mapGet st.activeUsers uid2 = some u2)
    (h5 : u2.currentRoom = some roomId)
    (hid1 : d1.id = some oid) (hid2 : d2.id = some oid)
    (hne : oid.isEmpty = false) :
    ((mapGet (create_shared_object (create_shared_object st uid1 d1 g1 t1).1
        uid2 d2 g2 t2).1.vrSessions roomId).map
      (fun r => mapGet r.sharedObjects oid)) =
      some (some (buildObject oid d2 uid2 t2)) ∧
    (buildObject oid d2 uid2 t2).createdBy = uid2 ∧
    (create_shared_object (create_shared_object st uid1 d1 g1 t1).1 uid2 d2 g2 t2).2 =
      [Emit.toRoomAll roomId (.sharedObjectCreated (buildObject oid d2 uid2 t2))] := by
  have e1 : (create_shared_object st uid1 d1 g1 t1).1 =
      { st with
        vrSessions := mapSet st.vrSessions roomId
          (roomWithObject ((mapGet st.vrSessions roomId).getD (freshRoom roomId t1))
            oid (buildObject oid d1 uid1 t1)) } := by
    simp [create_shared_object, h1, h2, h3, hid1, jsOrStr, hne, roomWithObject]
  refine ⟨?_, rfl, ?_⟩
  · rw [e1]
    simp [create_shared_object, h4, h5, hid2, jsOrStr, hne, roomWithObject,
      mapGet_mapSet_self, mapHas_mapSet_self]
  · rw [e1]
    simp [create_shared_object, h4, h5, hid2, jsOrStr, hne, roomWithObject,
      mapGet_mapSet_self, mapHas_mapSet_self]

/-- C9 witness: users 1 and 2 both create object "o1" in room "A"; the
stored object afterwards is the one built from user 2's descriptor. -/
theorem create_same_id_overwrites_witness :
    mapGet exRelaySt.activeUsers 1 = some exRelayUserA ∧
    mapGet exRelaySt.activeUsers 2 = some exRelayUserB ∧
    mapHas exRelaySt.vrSessions "A" = true ∧
    ((mapGet (create_shared_object (create_shared_object exRelaySt 1 exDesc "g1" 3).1
        2 exDesc2 "g2" 4).1.vrSessions "A").map
      (fun r => mapGet r.sharedObjects "o1")) =
      some (some (buildObject "o1" exDesc2 2 4)) ∧
    (buildObject "o1" exDesc2 2 4).createdBy = 2 := by
  have h := create_same_id_overwrites exRelaySt 1 2 exDesc exDesc2 "g1" "g2" 3 4
    "o1" "A" exRelayUserA exRelayUserB (by decide) (by decide) (by decide)
    (by decide) (by decide) (by decide) (by decide) (by decide)
  exact ⟨by decide, by decide, by decide, h.1, h.2.1⟩
